import Mathlib

/-!
# Passenger: `Application` and its sessions (`ext/apache2/Application.h`)

A shallow embedding of `Passenger::Application`, `Application::Session` and
`Application::StandardSession`.

* The shared counter `SharedData::sessions` is a C++ `unsigned int`; it is a
  `Nat` kept below `UINT_MOD = 2 ^ 32`, and `++` / `--` wrap modulo `UINT_MOD`
  (`incremented`, `decremented`).
* File descriptors, process ids, `errno` values and timestamps are `Int`.
* Every side effect on the outside world (system calls, `MessageChannel`
  calls, the stores to the shared counter, the close callback) is appended to
  a trace of `Event`s, in program order.
* The outcome of each call into the outside world is an argument of the
  operation that makes the call.
-/

namespace Passenger

/-- Number of values of the C++ type `unsigned int` (32 bits wide): `2 ^ 32`. -/
def UINT_MOD : Nat := 4294967296

/-- The value of an `unsigned int` after `++`: addition modulo `UINT_MOD`. -/
def incremented (n : Nat) : Nat := (n + 1) % UINT_MOD

/-- The value of an `unsigned int` after `--`: subtraction modulo `UINT_MOD`,
so that 0 wraps to `UINT_MOD - 1`. -/
def decremented (n : Nat) : Nat := if n = 0 then UINT_MOD - 1 else n - 1

/-- The `errno` value `EINTR` of `<errno.h>`. -/
def EINTR : Int := 4

/-- A block of bytes (`const char *` together with its `size`). -/
abbrev Bytes := List (Fin 256)

/-- Modelled from the spec: `Exceptions.h` is not among the sources. A
`SystemException` is built from a message and an error code and `code()` gives
the code back; an `IOException` is built from a message and `what()` gives
that message back. -/
inductive Exn where
  | SystemException (message : String) (code : Int)
  | IOException (message : String)
deriving DecidableEq

/-- Modelled from the spec: `MessageChannel.h` is not among the sources.
`writeScalar` and `writeRaw` either succeed or fail with a system error that
carries a message and the underlying error code. -/
inductive WriteOutcome where
  | ok
  | systemError (message : String) (code : Int)
deriving DecidableEq

/-- Modelled from the spec: `MessageChannel.h` is not among the sources.
`readFileDescriptor` either yields the received descriptor or fails with a
`SystemException` or an `IOException`. -/
abbrev ReadOutcome := Except Exn Int

/-- The outcome of one `write(2)` call: the return value and the value of
`errno` after the call. -/
structure ProbeOutcome where
  ret : Int
  errno : Int
deriving DecidableEq

/-- The side effects of the code, in program order. -/
inductive Event where
  /-- Probe `write(fd, "", 1)`. -/
  | write (fd : Int)
  /-- Call `MessageChannel(fd).readFileDescriptor()`. -/
  | readFileDescriptor (fd : Int)
  /-- Call `MessageChannel(fd).writeScalar(data, size)`. -/
  | writeScalar (fd : Int) (data : Bytes)
  /-- Call `MessageChannel(fd).writeRaw(data, size)`. -/
  | writeRaw (fd : Int) (data : Bytes)
  /-- Call `close(fd)`. -/
  | close (fd : Int)
  /-- Store `data->sessions++`. -/
  | sessionsInc
  /-- Store `data->sessions--`. -/
  | sessionsDec
  /-- Call `closeCallback(*this)`: the callback, and what it can observe when
  it starts: `getReader()`, `getWriter()` and the shared counter. -/
  | closeCallback (cb : Nat) (reader writer : Int) (sessions : Nat)
deriving DecidableEq

/-- `struct SharedData`. -/
structure SharedData where
  sessions : Nat
deriving DecidableEq

/-- The fields of `class Application` other than the `data` pointer. -/
structure Application where
  appRoot : String
  pid : Int
  listenSocket : Int
  lastUsed : Int
deriving DecidableEq

/-- An `Application`, the `SharedData` its `data` pointer refers to (shared
with every session made by `connect`), and the effects so far. -/
structure State where
  app : Application
  data : SharedData
  trace : List Event
deriving DecidableEq

/-- The fields of `class StandardSession` other than the `data` pointer, which
refers to the `data` of the `State`. The callback is named by a number. -/
structure StandardSession where
  closeCallback : Nat
  reader : Int
  writer : Int
deriving DecidableEq

/-- Append one effect to the trace. -/
def State.emit (st : State) (e : Event) : State :=
  { st with trace := st.trace ++ [e] }

/-- `Application::Application(theAppRoot, pid, listenSocket)`; `now` is the
value of `time(NULL)`. -/
def Application.create (theAppRoot : String) (pid listenSocket now : Int) : State :=
  { app := { appRoot := theAppRoot, pid := pid, listenSocket := listenSocket, lastUsed := now },
    data := { sessions := 0 },
    trace := [] }

/-- `Application::getAppRoot`. -/
def State.getAppRoot (st : State) : String := st.app.appRoot

/-- `Application::getPid`. -/
def State.getPid (st : State) : Int := st.app.pid

/-- `Application::getSessions`. -/
def State.getSessions (st : State) : Nat := st.data.sessions

/-- `Application::getLastUsed`. -/
def State.getLastUsed (st : State) : Int := st.app.lastUsed

/-- `Application::setLastUsed`. -/
def State.setLastUsed (st : State) (time : Int) : State :=
  { st with app := { st.app with lastUsed := time } }

/-- `StandardSession::getReader`. -/
def StandardSession.getReader (s : StandardSession) : Int := s.reader

/-- `StandardSession::getWriter`. -/
def StandardSession.getWriter (s : StandardSession) : Int := s.writer

/-- `StandardSession::closeReader`. -/
def StandardSession.closeReader (s : StandardSession) (st : State) : StandardSession × State :=
  if s.reader ≠ -1 then
    ({ s with reader := -1 }, st.emit (Event.close s.reader))
  else
    (s, st)

/-- `StandardSession::closeWriter`. -/
def StandardSession.closeWriter (s : StandardSession) (st : State) : StandardSession × State :=
  if s.writer ≠ -1 then
    ({ s with writer := -1 }, st.emit (Event.close s.writer))
  else
    (s, st)

/-- `StandardSession::StandardSession(data, closeCallback, reader, writer)`. -/
def StandardSession.create (cb : Nat) (reader writer : Int) (st : State) :
    StandardSession × State :=
  let st1 : State :=
    { st with data := { sessions := incremented st.data.sessions } }
  ({ closeCallback := cb, reader := reader, writer := writer }, st1.emit Event.sessionsInc)

/-- `StandardSession::~StandardSession`. -/
def StandardSession.destroy (s : StandardSession) (st : State) : State :=
  let st1 : State :=
    { st with data := { sessions := decremented st.data.sessions } }
  let st2 := st1.emit Event.sessionsDec
  let r := s.closeReader st2
  let w := r.1.closeWriter r.2
  w.2.emit (Event.closeCallback w.1.closeCallback w.1.getReader w.1.getWriter w.2.data.sessions)

/-- `Session::sendHeaders(const char *, unsigned int)`; `out` is the outcome of
the `writeScalar` call, should it be made. -/
def StandardSession.sendHeaders (s : StandardSession) (headers : Bytes) (out : WriteOutcome)
    (st : State) : Except Exn Unit × State :=
  let writer := s.getWriter
  if writer = -1 then
    (Except.error (Exn.IOException
      "Cannot write headers to the request handler because the writer channel has already been closed."),
      st)
  else
    let st1 := st.emit (Event.writeScalar writer headers)
    match out with
    | WriteOutcome.ok => (Except.ok (), st1)
    | WriteOutcome.systemError _ code =>
      (Except.error (Exn.SystemException
        "An error occured while writing headers to the request handler" code), st1)

/-- `Session::sendBodyBlock(const char *, unsigned int)`; `out` is the outcome
of the `writeRaw` call, should it be made. -/
def StandardSession.sendBodyBlock (s : StandardSession) (block : Bytes) (out : WriteOutcome)
    (st : State) : Except Exn Unit × State :=
  let writer := s.getWriter
  if writer = -1 then
    (Except.error (Exn.IOException
      "Cannot write request body block to the request handler because the writer channel has already been closed."),
      st)
  else
    let st1 := st.emit (Event.writeRaw writer block)
    match out with
    | WriteOutcome.ok => (Except.ok (), st1)
    | WriteOutcome.systemError _ code =>
      (Except.error (Exn.SystemException
        "An error occured while request body to the request handler" code), st1)

/-- The loop condition of the probe loop in `Application::connect`. -/
def probeRetried (o : ProbeOutcome) : Bool :=
  (o.ret == -1 && o.errno == EINTR) || o.ret == 0

/-- The `do ... while` probe loop of `Application::connect`. The list holds the
outcomes of the successive `write` calls; the result is the outcome that ended
the loop and the state after the last attempt, or `none` when every listed
outcome was retried (the loop is still running). -/
def probeLoop (st : State) : List ProbeOutcome → Option (ProbeOutcome × State)
  | [] => none
  | o :: rest =>
    let st1 := st.emit (Event.write st.app.listenSocket)
    if probeRetried o then probeLoop st1 rest else some (o, st1)

/-- The two `catch` clauses of `Application::connect`. -/
def connectRethrow : Exn → Exn
  | Exn.SystemException _ code =>
    Exn.SystemException
      "Cannot receive one of the session file descriptors from the request handler" code
  | Exn.IOException what =>
    Exn.IOException
      ("Cannot receive one of the session file descriptors from the request handler" ++ what)

/-- The `try` block of `Application::connect`; `fd1` and `fd2` are the outcomes
of the first and of the second `readFileDescriptor` call (the second is made
only when the first succeeded). -/
def connectTry (st : State) (cb : Nat) (fd1 fd2 : ReadOutcome) :
    Except Exn StandardSession × State :=
  let st1 := st.emit (Event.readFileDescriptor st.app.listenSocket)
  match fd1 with
  | Except.error e => (Except.error (connectRethrow e), st1)
  | Except.ok reader =>
    let st2 := st1.emit (Event.readFileDescriptor st.app.listenSocket)
    match fd2 with
    | Except.error e => (Except.error (connectRethrow e), st2)
    | Except.ok writer =>
      let r := StandardSession.create cb reader writer st2
      (Except.ok r.1, r.2)

/-- `Application::connect(closeCallback)`. `probes` are the outcomes of the
successive probe writes, `fd1` and `fd2` those of the descriptor reads. The
result is `none` when the probe loop has not ended within `probes`. -/
def State.connect (st : State) (cb : Nat) (probes : List ProbeOutcome)
    (fd1 fd2 : ReadOutcome) : Option (Except Exn StandardSession × State) :=
  match probeLoop st probes with
  | none => none
  | some (o, st1) =>
    if o.ret = -1 then
      some (Except.error (Exn.SystemException
        "Cannot request a new session from the request handler" o.errno), st1)
    else
      some (connectTry st1 cb fd1 fd2)

/-- An application together with the sessions made by `connect` that have not
been destroyed yet. -/
structure System where
  st : State
  live : List StandardSession
deriving DecidableEq

/-- What a caller can do with an application and its live sessions. -/
inductive Op where
  /-- Call `connect`, with the outcomes of its calls into the outside world. -/
  | connect (cb : Nat) (probes : List ProbeOutcome) (fd1 fd2 : ReadOutcome)
  /-- Destroy the live session at position `i`. -/
  | destroy (i : Nat)
  /-- Call `closeReader` on the live session at position `i`. -/
  | closeReader (i : Nat)
  /-- Call `closeWriter` on the live session at position `i`. -/
  | closeWriter (i : Nat)
  /-- Call `setLastUsed`. -/
  | setLastUsed (time : Int)

/-- One operation on the system; `none` when there is no live session at the
given position, or when the probe loop of `connect` has not ended. -/
def System.step (sys : System) : Op → Option System
  | Op.connect cb probes fd1 fd2 =>
    match sys.st.connect cb probes fd1 fd2 with
    | none => none
    | some (Except.ok s, st1) => some { st := st1, live := sys.live ++ [s] }
    | some (Except.error _, st1) => some { st := st1, live := sys.live }
  | Op.destroy i =>
    match sys.live[i]? with
    | none => none
    | some s => some { st := s.destroy sys.st, live := sys.live.eraseIdx i }
  | Op.closeReader i =>
    match sys.live[i]? with
    | none => none
    | some s =>
      let r := s.closeReader sys.st
      some { st := r.2, live := sys.live.set i r.1 }
  | Op.closeWriter i =>
    match sys.live[i]? with
    | none => none
    | some s =>
      let r := s.closeWriter sys.st
      some { st := r.2, live := sys.live.set i r.1 }
  | Op.setLastUsed time => some { sys with st := sys.st.setLastUsed time }

/-- The session that `goodConnect` makes. -/
def goodSession : StandardSession :=
  { closeCallback := 0, reader := 3, writer := 4 }

/-- Call `closeReader` on a session `n` times in a row. -/
def closeReaderTimes : Nat → StandardSession × State → StandardSession × State
  | 0, p => p
  | n + 1, p => closeReaderTimes n (p.1.closeReader p.2)

/-- Call `closeWriter` on a session `n` times in a row. -/
def closeWriterTimes : Nat → StandardSession × State → StandardSession × State
  | 0, p => p
  | n + 1, p => closeWriterTimes n (p.1.closeWriter p.2)

/-- The message an exception was constructed with. -/
def Exn.message : Exn → String
  | Exn.SystemException message _ => message
  | Exn.IOException message => message

/-- The application used in the examples. -/
def demoApp : State := Application.create "/srv/app" 7 5 0

/-- The `close` call made for a descriptor, if it is still open. -/
def closeEvents (fd : Int) : List Event :=
  if fd ≠ -1 then [Event.close fd] else []

/-- The events of a trace that close a descriptor. -/
def closes (tr : List Event) : List Int :=
  tr.filterMap fun e =>
    match e with
    | Event.close fd => some fd
    | _ => none

/-- The callbacks invoked in a trace. -/
def callbacks (tr : List Event) : List Nat :=
  tr.filterMap fun e =>
    match e with
    | Event.closeCallback cb _ _ _ => some cb
    | _ => none

/-- The descriptor reads of a trace. -/
def reads (tr : List Event) : List Int :=
  tr.filterMap fun e =>
    match e with
    | Event.readFileDescriptor fd => some fd
    | _ => none

/-- The state after the effects `evs`. -/
def State.extended (st : State) (evs : List Event) : State :=
  { st with trace := st.trace ++ evs }

/-- The state after `n` more probe writes on the control socket. -/
def State.probed (st : State) (n : Nat) : State :=
  { st with trace := st.trace ++ List.replicate n (Event.write st.app.listenSocket) }

/-! ## The probe loop -/

theorem probeLoop_retried (st : State) (rs : List ProbeOutcome) (o : ProbeOutcome)
    (rest : List ProbeOutcome) (hrs : ∀ r ∈ rs, probeRetried r = true)
    (ho : probeRetried o = false) :
    probeLoop st (rs ++ o :: rest) =
      some (o, st.probed (rs.length + 1)) := by
  induction rs generalizing st with
  | nil => simp [probeLoop, ho, State.emit, State.probed]
  | cons r rs ih =>
    have hr : probeRetried r = true := hrs r (List.mem_cons_self _ _)
    have hrs1 : ∀ x ∈ rs, probeRetried x = true :=
      fun x hx => hrs x (List.mem_cons_of_mem _ hx)
    have hstep : probeLoop st ((r :: rs) ++ o :: rest) =
        probeLoop (st.emit (Event.write st.app.listenSocket)) (rs ++ o :: rest) := by
      simp [probeLoop, hr]
    rw [hstep, ih _ hrs1]
    simp [State.emit, State.probed, List.replicate_succ]

theorem probeLoop_some (st : State) (probes : List ProbeOutcome) (o : ProbeOutcome)
    (st1 : State) (h : probeLoop st probes = some (o, st1)) :
    ∃ rs rest, probes = rs ++ o :: rest ∧ (∀ r ∈ rs, probeRetried r = true) ∧
      probeRetried o = false ∧
      st1 = st.probed (rs.length + 1) := by
  induction probes generalizing st with
  | nil => simp [probeLoop] at h
  | cons p ps ih =>
    simp only [probeLoop] at h
    by_cases hp : probeRetried p = true
    · rw [if_pos hp] at h
      obtain ⟨rs, rest, h1, h2, h3, h4⟩ := ih _ h
      refine ⟨p :: rs, rest, by simp [h1], ?_, h3, ?_⟩
      · intro r hr
        rcases List.mem_cons.mp hr with rfl | hr
        · exact hp
        · exact h2 r hr
      · rw [h4]
        simp [State.emit, State.probed, List.replicate_succ]
    · rw [if_neg hp] at h
      simp only [Option.some.injEq, Prod.mk.injEq] at h
      obtain ⟨rfl, rfl⟩ := h
      exact ⟨[], ps, rfl, by simp, by simpa using hp, by simp [State.emit, State.probed]⟩

/-! ## What `connect` does -/

theorem connect_ok (st : State) (cb : Nat) (probes : List ProbeOutcome) (fd1 fd2 : ReadOutcome)
    (s : StandardSession) (st1 : State)
    (h : st.connect cb probes fd1 fd2 = some (Except.ok s, st1)) :
    ∃ rs o rest r w, probes = rs ++ o :: rest ∧ (∀ x ∈ rs, probeRetried x = true) ∧
      probeRetried o = false ∧ o.ret ≠ -1 ∧ fd1 = Except.ok r ∧ fd2 = Except.ok w ∧
      s = { closeCallback := cb, reader := r, writer := w } ∧
      st1.app = st.app ∧ st1.data.sessions = incremented st.data.sessions ∧
      st1.trace = st.trace ++ List.replicate (rs.length + 1) (Event.write st.app.listenSocket)
        ++ [Event.readFileDescriptor st.app.listenSocket,
            Event.readFileDescriptor st.app.listenSocket, Event.sessionsInc] := by
  unfold State.connect at h
  cases hp : probeLoop st probes with
  | none => simp [hp] at h
  | some p =>
    obtain ⟨o, st0⟩ := p
    obtain ⟨rs, rest, h1, h2, h3, h4⟩ := probeLoop_some st probes o st0 hp
    simp only [hp] at h
    by_cases hret : o.ret = -1
    · simp [hret] at h
    · rw [if_neg hret] at h
      cases fd1 with
      | error e => simp [connectTry] at h
      | ok r =>
        cases fd2 with
        | error e => simp [connectTry] at h
        | ok w =>
          simp only [connectTry, StandardSession.create, Option.some.injEq,
            Prod.mk.injEq, Except.ok.injEq] at h
          obtain ⟨hs, hst⟩ := h
          subst hs hst h4
          exact ⟨rs, o, rest, r, w, h1, h2, h3, hret, rfl, rfl, rfl, rfl, rfl,
            by simp [State.emit, State.probed]⟩

theorem connect_eq (st : State) (cb : Nat) (rs : List ProbeOutcome) (o : ProbeOutcome)
    (rest : List ProbeOutcome) (fd1 fd2 : ReadOutcome)
    (hrs : ∀ r ∈ rs, probeRetried r = true) (ho : probeRetried o = false) :
    st.connect cb (rs ++ o :: rest) fd1 fd2 =
      some (if o.ret = -1 then
          (Except.error (Exn.SystemException
            "Cannot request a new session from the request handler" o.errno),
            st.probed (rs.length + 1))
        else connectTry (st.probed (rs.length + 1)) cb fd1 fd2) := by
  unfold State.connect
  rw [probeLoop_retried st rs o rest hrs ho]
  by_cases hret : o.ret = -1
  · simp only [hret, if_true]
  · simp only [hret, if_false]

theorem probeLoop_none (st : State) (rs : List ProbeOutcome)
    (hrs : ∀ r ∈ rs, probeRetried r = true) : probeLoop st rs = none := by
  induction rs generalizing st with
  | nil => rfl
  | cons r rs ih =>
    have hr : probeRetried r = true := hrs r (List.mem_cons_self _ _)
    simp only [probeLoop, hr, if_true]
    exact ih _ fun x hx => hrs x (List.mem_cons_of_mem _ hx)

theorem connect_error_cases (st : State) (cb : Nat) (probes : List ProbeOutcome)
    (fd1 fd2 : ReadOutcome) (e : Exn) (st1 : State)
    (h : st.connect cb probes fd1 fd2 = some (Except.error e, st1)) :
    ∃ rs o rest, probes = rs ++ o :: rest ∧ (∀ x ∈ rs, probeRetried x = true) ∧
      probeRetried o = false ∧
      ((o.ret = -1 ∧
          e = Exn.SystemException "Cannot request a new session from the request handler"
            o.errno ∧
          st1 = st.probed (rs.length + 1)) ∨
        (o.ret ≠ -1 ∧ ∃ c, fd1 = Except.error c ∧ e = connectRethrow c ∧
          st1 = (st.probed (rs.length + 1)).emit
            (Event.readFileDescriptor st.app.listenSocket)) ∨
        (o.ret ≠ -1 ∧ ∃ r c, fd1 = Except.ok r ∧ fd2 = Except.error c ∧ e = connectRethrow c ∧
          st1 = ((st.probed (rs.length + 1)).emit
            (Event.readFileDescriptor st.app.listenSocket)).emit
            (Event.readFileDescriptor st.app.listenSocket))) := by
  unfold State.connect at h
  cases hp : probeLoop st probes with
  | none => simp [hp] at h
  | some p =>
    obtain ⟨o, st0⟩ := p
    obtain ⟨rs, rest, h1, h2, h3, h4⟩ := probeLoop_some st probes o st0 hp
    simp only [hp] at h
    refine ⟨rs, o, rest, h1, h2, h3, ?_⟩
    by_cases hret : o.ret = -1
    · simp only [if_pos hret, Option.some.injEq, Prod.mk.injEq, Except.error.injEq] at h
      obtain ⟨he, hst⟩ := h
      subst hst h4
      exact Or.inl ⟨hret, he.symm, rfl⟩
    · rw [if_neg hret] at h
      cases fd1 with
      | error e1 =>
        simp only [connectTry, Option.some.injEq, Prod.mk.injEq, Except.error.injEq] at h
        obtain ⟨he, hst⟩ := h
        subst hst h4
        exact Or.inr (Or.inl ⟨hret, e1, rfl, he.symm, rfl⟩)
      | ok r =>
        cases fd2 with
        | error e2 =>
          simp only [connectTry, Option.some.injEq, Prod.mk.injEq, Except.error.injEq] at h
          obtain ⟨he, hst⟩ := h
          subst hst h4
          exact Or.inr (Or.inr ⟨hret, r, e2, rfl, rfl, he.symm, rfl⟩)
        | ok w => simp [connectTry] at h

theorem connect_error (st : State) (cb : Nat) (probes : List ProbeOutcome) (fd1 fd2 : ReadOutcome)
    (e : Exn) (st1 : State)
    (h : st.connect cb probes fd1 fd2 = some (Except.error e, st1)) :
    st1.app = st.app ∧ st1.data = st.data ∧
      ∃ n k, k ≤ 2 ∧ st1.trace = st.trace
        ++ List.replicate n (Event.write st.app.listenSocket)
        ++ List.replicate k (Event.readFileDescriptor st.app.listenSocket) := by
  obtain ⟨rs, o, rest, _, _, _, hc⟩ := connect_error_cases st cb probes fd1 fd2 e st1 h
  rcases hc with ⟨_, _, hst⟩ | ⟨_, _, _, _, hst⟩ | ⟨_, _, _, _, _, _, hst⟩
  · subst hst
    exact ⟨rfl, rfl, rs.length + 1, 0, by omega, by simp [State.probed]⟩
  · subst hst
    exact ⟨rfl, rfl, rs.length + 1, 1, by omega, by simp [State.probed, State.emit]⟩
  · subst hst
    exact ⟨rfl, rfl, rs.length + 1, 2, by omega, by simp [State.probed, State.emit]⟩

theorem closes_append (a b : List Event) : closes (a ++ b) = closes a ++ closes b := by
  simp only [closes, List.filterMap_append]

theorem callbacks_append (a b : List Event) :
    callbacks (a ++ b) = callbacks a ++ callbacks b := by
  simp only [callbacks, List.filterMap_append]

theorem reads_append (a b : List Event) : reads (a ++ b) = reads a ++ reads b := by
  simp only [reads, List.filterMap_append]

theorem closes_writes (n : Nat) (fd : Int) : closes (List.replicate n (Event.write fd)) = [] := by
  induction n with
  | zero => rfl
  | succ n ih => simp [closes, List.replicate_succ]

theorem callbacks_writes (n : Nat) (fd : Int) :
    callbacks (List.replicate n (Event.write fd)) = [] := by
  induction n with
  | zero => rfl
  | succ n ih => simp [callbacks, List.replicate_succ]

theorem reads_writes (n : Nat) (fd : Int) : reads (List.replicate n (Event.write fd)) = [] := by
  induction n with
  | zero => rfl
  | succ n ih => simp [reads, List.replicate_succ]

theorem closes_reads (n : Nat) (fd : Int) :
    closes (List.replicate n (Event.readFileDescriptor fd)) = [] := by
  induction n with
  | zero => rfl
  | succ n ih => simp [closes, List.replicate_succ]

theorem callbacks_reads (n : Nat) (fd : Int) :
    callbacks (List.replicate n (Event.readFileDescriptor fd)) = [] := by
  induction n with
  | zero => rfl
  | succ n ih => simp [callbacks, List.replicate_succ]

theorem connect_no_close (st : State) (cb : Nat) (probes : List ProbeOutcome)
    (fd1 fd2 : ReadOutcome) (res : Except Exn StandardSession) (st1 : State)
    (h : st.connect cb probes fd1 fd2 = some (res, st1)) :
    closes st1.trace = closes st.trace ∧ callbacks st1.trace = callbacks st.trace := by
  cases res with
  | error e =>
    obtain ⟨_, _, n, k, _, ht⟩ := connect_error st cb probes fd1 fd2 e st1 h
    rw [ht]
    simp only [closes_append, callbacks_append, closes_writes, callbacks_writes, closes_reads,
      callbacks_reads, List.append_nil, and_self]
  | ok s =>
    obtain ⟨rs, _, _, _, _, _, _, _, _, _, _, _, _, _, ht⟩ :=
      connect_ok st cb probes fd1 fd2 s st1 h
    rw [ht]
    simp only [closes_append, callbacks_append, closes_writes, callbacks_writes,
      List.append_nil]
    exact ⟨by simp [closes], by simp [callbacks]⟩

/-! ## What the destructor does -/

theorem closeReader_eq (s : StandardSession) (st : State) :
    s.closeReader st =
      ({ s with reader := -1 }, { st with trace := st.trace ++ closeEvents s.reader }) := by
  obtain ⟨cb, r, w⟩ := s
  unfold StandardSession.closeReader closeEvents
  by_cases hr : r = -1
  · subst hr
    simp
  · simp only [ne_eq, hr, not_false_eq_true, if_true, State.emit]

theorem closeWriter_eq (s : StandardSession) (st : State) :
    s.closeWriter st =
      ({ s with writer := -1 }, { st with trace := st.trace ++ closeEvents s.writer }) := by
  obtain ⟨cb, r, w⟩ := s
  unfold StandardSession.closeWriter closeEvents
  by_cases hw : w = -1
  · subst hw
    simp
  · simp only [ne_eq, hw, not_false_eq_true, if_true, State.emit]

theorem destroy_eq (s : StandardSession) (st : State) :
    s.destroy st =
      { app := st.app,
        data := { sessions := decremented st.data.sessions },
        trace := st.trace ++ ([Event.sessionsDec] ++ (closeEvents s.reader ++
          (closeEvents s.writer ++
            [Event.closeCallback s.closeCallback (-1) (-1) (decremented st.data.sessions)]))) } := by
  unfold StandardSession.destroy
  simp only [closeReader_eq, closeWriter_eq]
  simp only [State.emit, StandardSession.getReader, StandardSession.getWriter,
    List.append_assoc]

theorem closeReader_frame (s : StandardSession) (st : State) :
    (s.closeReader st).2.data = st.data ∧ (s.closeReader st).2.app = st.app := by
  rw [closeReader_eq]
  exact ⟨rfl, rfl⟩

theorem closeWriter_frame (s : StandardSession) (st : State) :
    (s.closeWriter st).2.data = st.data ∧ (s.closeWriter st).2.app = st.app := by
  rw [closeWriter_eq]
  exact ⟨rfl, rfl⟩

/-- C2: destroying a session, whatever the state of its two descriptors, has
exactly these effects, in this order: the store `data->sessions--`, `close` of
the reader if it is not -1, `close` of the writer if it is not -1, and one
call of the session's close callback, which observes `getReader() == -1`,
`getWriter() == -1` and the decremented counter. The callback is the only one
invoked, also when `closeReader` and `closeWriter` were called before, in
which case no descriptor is closed again. -/
theorem destroy_effects (s : StandardSession) (st : State) :
    (s.destroy st).trace = st.trace ++ [Event.sessionsDec]
      ++ (if s.reader ≠ -1 then [Event.close s.reader] else [])
      ++ (if s.writer ≠ -1 then [Event.close s.writer] else [])
      ++ [Event.closeCallback s.closeCallback (-1) (-1) (decremented st.getSessions)] ∧
    (s.destroy st).getSessions = decremented st.getSessions ∧
    (s.destroy st).app = st.app ∧
    callbacks (s.destroy st).trace = callbacks st.trace ++ [s.closeCallback] ∧
    ((s.closeReader st).1.closeWriter (s.closeReader st).2).1.destroy
        ((s.closeReader st).1.closeWriter (s.closeReader st).2).2 =
      { app := st.app,
        data := { sessions := decremented st.getSessions },
        trace := ((s.closeReader st).1.closeWriter (s.closeReader st).2).2.trace
          ++ [Event.sessionsDec,
              Event.closeCallback s.closeCallback (-1) (-1) (decremented st.getSessions)] } := by
  refine ⟨?_, ?_, ?_, ?_, ?_⟩
  · rw [destroy_eq]
    simp only [closeEvents, State.getSessions, List.append_assoc]
  · rw [destroy_eq]
    rfl
  · rw [destroy_eq]
  · rw [destroy_eq]
    simp only [callbacks, closeEvents, List.filterMap_append]
    by_cases hr : s.reader = -1 <;> by_cases hw : s.writer = -1 <;>
      simp [hr, hw, List.filterMap_cons]
  · rw [destroy_eq, closeReader_eq, closeWriter_eq]
    simp [closeEvents, State.getSessions]

/-! ## C3: `closeReader` and `closeWriter` are idempotent -/

theorem closeReader_twice (s : StandardSession) (st : State) :
    (s.closeReader st).1.closeReader (s.closeReader st).2 = s.closeReader st := by
  rw [closeReader_eq, closeReader_eq]
  simp [closeEvents]

theorem closeWriter_twice (s : StandardSession) (st : State) :
    (s.closeWriter st).1.closeWriter (s.closeWriter st).2 = s.closeWriter st := by
  rw [closeWriter_eq, closeWriter_eq]
  simp [closeEvents]

theorem closeReaderTimes_succ (n : Nat) (s : StandardSession) (st : State) :
    closeReaderTimes (n + 1) (s, st) = s.closeReader st := by
  induction n generalizing s st with
  | zero => rfl
  | succ n ih =>
    have h := ih (s.closeReader st).1 (s.closeReader st).2
    rw [closeReader_twice] at h
    exact h

theorem closeWriterTimes_succ (n : Nat) (s : StandardSession) (st : State) :
    closeWriterTimes (n + 1) (s, st) = s.closeWriter st := by
  induction n generalizing s st with
  | zero => rfl
  | succ n ih =>
    have h := ih (s.closeWriter st).1 (s.closeWriter st).2
    rw [closeWriter_twice] at h
    exact h

/-- C3: for every session state and every `n`, calling `closeReader` (or
`closeWriter`) `n + 1` times in a row gives the same session, counter and
trace as calling it once: no further `close` is issued. After the call the
descriptor is -1, it was closed once if it was open and not at all otherwise,
and the other descriptor, the counter and the application are unchanged. -/
theorem close_idempotent (s : StandardSession) (st : State) (n : Nat) :
    closeReaderTimes (n + 1) (s, st) = s.closeReader st ∧
    closeWriterTimes (n + 1) (s, st) = s.closeWriter st ∧
    (s.closeReader st).1.getReader = -1 ∧
    (s.closeReader st).1.getWriter = s.getWriter ∧
    (s.closeReader st).2.data = st.data ∧
    (s.closeReader st).2.app = st.app ∧
    (s.closeReader st).2.trace =
      st.trace ++ (if s.reader ≠ -1 then [Event.close s.reader] else []) ∧
    (s.closeWriter st).1.getWriter = -1 ∧
    (s.closeWriter st).1.getReader = s.getReader ∧
    (s.closeWriter st).2.data = st.data ∧
    (s.closeWriter st).2.app = st.app ∧
    (s.closeWriter st).2.trace =
      st.trace ++ (if s.writer ≠ -1 then [Event.close s.writer] else []) := by
  refine ⟨closeReaderTimes_succ n s st, closeWriterTimes_succ n s st, ?_, ?_,
    (closeReader_frame s st).1, (closeReader_frame s st).2, ?_, ?_, ?_,
    (closeWriter_frame s st).1, (closeWriter_frame s st).2, ?_⟩
  all_goals
    simp only [closeReader_eq, closeWriter_eq, StandardSession.getReader,
      StandardSession.getWriter, closeEvents]

/-! ## C4 and C8: `sendHeaders` and `sendBodyBlock` -/

theorem sendHeaders_closed (s : StandardSession) (headers : Bytes) (out : WriteOutcome)
    (st : State) (hw : s.writer = -1) :
    s.sendHeaders headers out st = (Except.error (Exn.IOException
      "Cannot write headers to the request handler because the writer channel has already been closed."),
      st) := by
  simp only [StandardSession.sendHeaders, StandardSession.getWriter, hw, if_true]

theorem sendBodyBlock_closed (s : StandardSession) (block : Bytes) (out : WriteOutcome)
    (st : State) (hw : s.writer = -1) :
    s.sendBodyBlock block out st = (Except.error (Exn.IOException
      "Cannot write request body block to the request handler because the writer channel has already been closed."),
      st) := by
  simp only [StandardSession.sendBodyBlock, StandardSession.getWriter, hw, if_true]

theorem sendHeaders_open (s : StandardSession) (headers : Bytes) (out : WriteOutcome)
    (st : State) (hw : s.writer ≠ -1) :
    s.sendHeaders headers out st =
      (match out with
        | WriteOutcome.ok => Except.ok ()
        | WriteOutcome.systemError _ code => Except.error (Exn.SystemException
            "An error occured while writing headers to the request handler" code),
       st.emit (Event.writeScalar s.writer headers)) := by
  simp only [StandardSession.sendHeaders, StandardSession.getWriter, hw, if_false]
  cases out <;> rfl

theorem sendBodyBlock_open (s : StandardSession) (block : Bytes) (out : WriteOutcome)
    (st : State) (hw : s.writer ≠ -1) :
    s.sendBodyBlock block out st =
      (match out with
        | WriteOutcome.ok => Except.ok ()
        | WriteOutcome.systemError _ code => Except.error (Exn.SystemException
            "An error occured while request body to the request handler" code),
       st.emit (Event.writeRaw s.writer block)) := by
  simp only [StandardSession.sendBodyBlock, StandardSession.getWriter, hw, if_false]
  cases out <;> rfl

/-- C4: on a session on which `closeWriter()` has been called, `sendHeaders`
and `sendBodyBlock` fail with the closed-channel `IOException` (not with a
`SystemException`), whatever the data and whatever a write would have done,
and leave the state as it was after `closeWriter()`: nothing is written. And
for every session, either operation raises an `IOException` exactly when the
writer is -1, so never while the writer is open; it makes its one write
exactly when the writer is not -1. -/
theorem send_on_closed_writer (s : StandardSession) (st : State) (data : Bytes)
    (out : WriteOutcome) :
    (s.closeWriter st).1.sendHeaders data out (s.closeWriter st).2 =
      (Except.error (Exn.IOException
        "Cannot write headers to the request handler because the writer channel has already been closed."),
        (s.closeWriter st).2) ∧
    (s.closeWriter st).1.sendBodyBlock data out (s.closeWriter st).2 =
      (Except.error (Exn.IOException
        "Cannot write request body block to the request handler because the writer channel has already been closed."),
        (s.closeWriter st).2) ∧
    ((∃ m, (s.sendHeaders data out st).1 = Except.error (Exn.IOException m)) ↔
      s.getWriter = -1) ∧
    ((∃ m, (s.sendBodyBlock data out st).1 = Except.error (Exn.IOException m)) ↔
      s.getWriter = -1) ∧
    (s.sendHeaders data out st).2 =
      (if s.getWriter = -1 then st else st.emit (Event.writeScalar s.getWriter data)) ∧
    (s.sendBodyBlock data out st).2 =
      (if s.getWriter = -1 then st else st.emit (Event.writeRaw s.getWriter data)) := by
  have hcw : (s.closeWriter st).1.writer = -1 := by rw [closeWriter_eq]
  refine ⟨sendHeaders_closed _ data out _ hcw, sendBodyBlock_closed _ data out _ hcw,
    ?_, ?_, ?_, ?_⟩
  · by_cases hw : s.writer = -1
    · rw [sendHeaders_closed s data out st hw]
      exact ⟨fun _ => hw, fun _ => ⟨_, rfl⟩⟩
    · rw [sendHeaders_open s data out st hw]
      constructor
      · rintro ⟨m, hm⟩
        cases out <;> simp at hm
      · intro h
        exact absurd h hw
  · by_cases hw : s.writer = -1
    · rw [sendBodyBlock_closed s data out st hw]
      exact ⟨fun _ => hw, fun _ => ⟨_, rfl⟩⟩
    · rw [sendBodyBlock_open s data out st hw]
      constructor
      · rintro ⟨m, hm⟩
        cases out <;> simp at hm
      · intro h
        exact absurd h hw
  · by_cases hw : s.writer = -1
    · rw [sendHeaders_closed s data out st hw]
      simp only [StandardSession.getWriter, hw, if_true]
    · rw [sendHeaders_open s data out st hw]
      simp only [StandardSession.getWriter, hw, if_false]
  · by_cases hw : s.writer = -1
    · rw [sendBodyBlock_closed s data out st hw]
      simp only [StandardSession.getWriter, hw, if_true]
    · rw [sendBodyBlock_open s data out st hw]
      simp only [StandardSession.getWriter, hw, if_false]

/-- C8: on a session whose writer is open (not -1), when the underlying
`writeScalar` (for `sendHeaders`) or `writeRaw` (for `sendBodyBlock`) fails
with a system error of code `c`, the operation raises a `SystemException`
with that same code `c`; when the underlying write succeeds, the operation
raises nothing. In both cases exactly that one write on the writer descriptor
is added to the trace. -/
theorem send_preserves_error_code (s : StandardSession) (st : State) (data : Bytes)
    (m : String) (c : Int) (hw : s.getWriter ≠ -1) :
    s.sendHeaders data (WriteOutcome.systemError m c) st =
      (Except.error (Exn.SystemException
        "An error occured while writing headers to the request handler" c),
        st.emit (Event.writeScalar s.getWriter data)) ∧
    s.sendBodyBlock data (WriteOutcome.systemError m c) st =
      (Except.error (Exn.SystemException
        "An error occured while request body to the request handler" c),
        st.emit (Event.writeRaw s.getWriter data)) ∧
    s.sendHeaders data WriteOutcome.ok st =
      (Except.ok (), st.emit (Event.writeScalar s.getWriter data)) ∧
    s.sendBodyBlock data WriteOutcome.ok st =
      (Except.ok (), st.emit (Event.writeRaw s.getWriter data)) :=
  ⟨sendHeaders_open s data _ st hw, sendBodyBlock_open s data _ st hw,
    sendHeaders_open s data _ st hw, sendBodyBlock_open s data _ st hw⟩

/-- C8, witness: a failed write with code 32 on the writer 4 of `goodSession`. -/
theorem send_preserves_error_code_witness :
    goodSession.sendHeaders [72, 0, 104, 0] (WriteOutcome.systemError "write() failed" 32)
        (Application.create "/srv/app" 7 5 0) =
      (Except.error (Exn.SystemException
        "An error occured while writing headers to the request handler" 32),
        (Application.create "/srv/app" 7 5 0).emit (Event.writeScalar 4 [72, 0, 104, 0])) :=
  (send_preserves_error_code goodSession (Application.create "/srv/app" 7 5 0)
    [72, 0, 104, 0] "write() failed" 32 (by decide)).1

/-! ## C5: the descriptors of the session made by `connect` -/

/-- C5: when `connect()` succeeds, the first `readFileDescriptor` succeeded
with the returned session's `getReader()` and the second one with its
`getWriter()`; the session holds the given callback; and what `connect()` did
is, in this order: at least one probe write on the control socket, two
`readFileDescriptor` calls on the control socket and no more, and the
increment of the counter. -/
theorem connect_descriptors (st : State) (cb : Nat) (probes : List ProbeOutcome)
    (fd1 fd2 : ReadOutcome) (s : StandardSession) (st1 : State)
    (h : st.connect cb probes fd1 fd2 = some (Except.ok s, st1)) :
    fd1 = Except.ok s.getReader ∧ fd2 = Except.ok s.getWriter ∧ s.closeCallback = cb ∧
    ∃ n, 0 < n ∧ st1.trace = st.trace ++ List.replicate n (Event.write st.app.listenSocket)
      ++ [Event.readFileDescriptor st.app.listenSocket,
          Event.readFileDescriptor st.app.listenSocket, Event.sessionsInc] := by
  obtain ⟨rs, o, rest, r, w, _, _, _, _, h1, h2, hs, _, _, ht⟩ :=
    connect_ok st cb probes fd1 fd2 s st1 h
  subst hs
  exact ⟨h1, h2, rfl, rs.length + 1, by omega, ht⟩

/-- C5, witness: a connect on the control socket 5 that is interrupted once and
then receives the descriptors 10 and 11. -/
theorem connect_descriptors_witness :
    demoApp.connect 3 [{ ret := -1, errno := 4 }, { ret := 1, errno := 4 }]
        (Except.ok 10) (Except.ok 11) =
      some (Except.ok { closeCallback := 3, reader := 10, writer := 11 },
        { app := demoApp.app, data := { sessions := 1 },
          trace := [Event.write 5, Event.write 5, Event.readFileDescriptor 5,
            Event.readFileDescriptor 5, Event.sessionsInc] }) ∧
    (Except.ok 10 : ReadOutcome) = Except.ok
      (StandardSession.getReader { closeCallback := 3, reader := 10, writer := 11 }) :=
  ⟨rfl, (connect_descriptors demoApp 3 [{ ret := -1, errno := 4 }, { ret := 1, errno := 4 }]
    (Except.ok 10) (Except.ok 11) { closeCallback := 3, reader := 10, writer := 11 }
    { app := demoApp.app, data := { sessions := 1 },
      trace := [Event.write 5, Event.write 5, Event.readFileDescriptor 5,
        Event.readFileDescriptor 5, Event.sessionsInc] } rfl).1⟩

/-! ## C6: the error raised by a failed `connect` -/

theorem connect_after (st : State) (cb : Nat) (r w : Int) :
    st.connect cb [{ ret := 1, errno := 0 }] (Except.ok r) (Except.ok w) =
      some (Except.ok { closeCallback := cb, reader := r, writer := w },
        (StandardSession.create cb r w
          (((st.emit (Event.write st.app.listenSocket)).emit
            (Event.readFileDescriptor st.app.listenSocket)).emit
            (Event.readFileDescriptor st.app.listenSocket))).2) := rfl

/-- C7: when `connect()` fails, it raises a `SystemException` or an
`IOException` and makes no session: the live sessions are the same as before.
`getSessions()`, `getAppRoot()`, `getPid()`, `getLastUsed()` and the control
socket descriptor are unchanged, `connect()` has closed no descriptor (so not
the control socket either) and invoked no callback, and a later `connect()`
on the same application whose probe write and descriptor reads succeed
returns a session and raises the counter. -/
theorem failed_connect_frame (st : State) (cb : Nat) (probes : List ProbeOutcome)
    (fd1 fd2 : ReadOutcome) (e : Exn) (st1 : State)
    (h : st.connect cb probes fd1 fd2 = some (Except.error e, st1)) :
    ((∃ m c, e = Exn.SystemException m c) ∨ (∃ m, e = Exn.IOException m)) ∧
    (∀ live, System.step { st := st, live := live } (Op.connect cb probes fd1 fd2) =
      some { st := st1, live := live }) ∧
    st1.getSessions = st.getSessions ∧ st1.getAppRoot = st.getAppRoot ∧
    st1.getPid = st.getPid ∧ st1.getLastUsed = st.getLastUsed ∧
    st1.app.listenSocket = st.app.listenSocket ∧
    closes st1.trace = closes st.trace ∧ callbacks st1.trace = callbacks st.trace ∧
    (∀ cb2 r w, ∃ st2,
      st1.connect cb2 [{ ret := 1, errno := 0 }] (Except.ok r) (Except.ok w) =
        some (Except.ok { closeCallback := cb2, reader := r, writer := w }, st2) ∧
      st2.getSessions = incremented st.getSessions) := by
  obtain ⟨happ, hdata, _⟩ := connect_error st cb probes fd1 fd2 e st1 h
  obtain ⟨hcl, hcb⟩ := connect_no_close st cb probes fd1 fd2 _ st1 h
  refine ⟨?_, ?_, ?_, ?_, ?_, ?_, ?_, hcl, hcb, ?_⟩
  · cases e with
    | SystemException m c => exact Or.inl ⟨m, c, rfl⟩
    | IOException m => exact Or.inr ⟨m, rfl⟩
  · intro live
    simp only [System.step, h]
  · simp only [State.getSessions, hdata]
  · simp only [State.getAppRoot, happ]
  · simp only [State.getPid, happ]
  · simp only [State.getLastUsed, happ]
  · rw [happ]
  · intro cb2 r w
    refine ⟨_, connect_after st1 cb2 r w, ?_⟩
    simp only [StandardSession.create, State.emit, State.getSessions, hdata]

/-- C7, witness: the probe write on the control socket 5 fails with the
error code 32. -/
theorem failed_connect_frame_witness :
    demoApp.connect 0 [{ ret := -1, errno := 32 }] (Except.ok 10) (Except.ok 11) =
      some (Except.error
        (Exn.SystemException "Cannot request a new session from the request handler" 32),
        demoApp.probed 1) ∧
    (demoApp.probed 1).getSessions = demoApp.getSessions :=
  ⟨rfl, (failed_connect_frame demoApp 0 [{ ret := -1, errno := 32 }] (Except.ok 10)
    (Except.ok 11) _ _ rfl).2.2.1⟩

/-! ## C9: the probe loop -/

theorem probeRetried_iff (o : ProbeOutcome) :
    probeRetried o = true ↔ (o.ret = -1 ∧ o.errno = EINTR) ∨ o.ret = 0 := by
  simp [probeRetried]

theorem connectTry_reads_first (st : State) (cb : Nat) (fd1 fd2 : ReadOutcome) :
    ∃ tl, (connectTry st cb fd1 fd2).2.trace =
      st.trace ++ Event.readFileDescriptor st.app.listenSocket :: tl := by
  cases fd1 with
  | error e => exact ⟨[], by simp [connectTry, State.emit]⟩
  | ok r =>
    cases fd2 with
    | error e =>
      exact ⟨[Event.readFileDescriptor st.app.listenSocket], by simp [connectTry, State.emit]⟩
    | ok w =>
      exact ⟨[Event.readFileDescriptor st.app.listenSocket, Event.sessionsInc],
        by simp [connectTry, State.emit, StandardSession.create]⟩

/-- C9: the probe write is retried exactly when it returns -1 with `EINTR` or
returns 0. Let `rs` be outcomes that are all of that kind. If they are all
there is, `connect()` has not returned. If they are followed by a successful
one-byte write, `connect()` has made `rs.length + 1` writes on the control
socket and goes on with the `try` block, which starts with a descriptor read.
If they are followed by a failure with another error code `e`, `connect()`
has made `rs.length + 1` writes, raises a `SystemException` with the code `e`
and reads no descriptor. Any outcome `o` that is not of the retried kind ends
the loop at once. -/
theorem probe_retried_while_interrupted (st : State) (cb : Nat) (rs : List ProbeOutcome)
    (o : ProbeOutcome) (rest : List ProbeOutcome) (fd1 fd2 : ReadOutcome)
    (hrs : ∀ r ∈ rs, (r.ret = -1 ∧ r.errno = EINTR) ∨ r.ret = 0) :
    st.connect cb rs fd1 fd2 = none ∧
    (o.ret = 1 →
      st.connect cb (rs ++ o :: rest) fd1 fd2 =
        some (connectTry (st.probed (rs.length + 1)) cb fd1 fd2) ∧
      ∃ tl, (connectTry (st.probed (rs.length + 1)) cb fd1 fd2).2.trace =
        st.trace ++ List.replicate (rs.length + 1) (Event.write st.app.listenSocket)
          ++ Event.readFileDescriptor st.app.listenSocket :: tl) ∧
    (o.ret = -1 → o.errno ≠ EINTR →
      st.connect cb (rs ++ o :: rest) fd1 fd2 =
        some (Except.error (Exn.SystemException
          "Cannot request a new session from the request handler" o.errno),
          st.probed (rs.length + 1)) ∧
      (st.probed (rs.length + 1)).trace =
        st.trace ++ List.replicate (rs.length + 1) (Event.write st.app.listenSocket) ∧
      reads (st.probed (rs.length + 1)).trace = reads st.trace) ∧
    (¬ ((o.ret = -1 ∧ o.errno = EINTR) ∨ o.ret = 0) →
      probeLoop st (rs ++ o :: rest) = some (o, st.probed (rs.length + 1))) := by
  have hrs1 : ∀ r ∈ rs, probeRetried r = true :=
    fun r hr => (probeRetried_iff r).mpr (hrs r hr)
  refine ⟨?_, ?_, ?_, ?_⟩
  · unfold State.connect
    rw [probeLoop_none st rs hrs1]
  · intro hret
    have ho : probeRetried o = false := by
      simp [probeRetried, hret]
    have hne : o.ret ≠ -1 := by
      rw [hret]
      decide
    rw [connect_eq st cb rs o rest fd1 fd2 hrs1 ho, if_neg hne]
    refine ⟨rfl, ?_⟩
    obtain ⟨tl, htl⟩ := connectTry_reads_first (st.probed (rs.length + 1)) cb fd1 fd2
    exact ⟨tl, htl⟩
  · intro hret herr
    have ho : probeRetried o = false := by
      simp [probeRetried, hret, herr]
    rw [connect_eq st cb rs o rest fd1 fd2 hrs1 ho, if_pos hret]
    refine ⟨rfl, rfl, ?_⟩
    simp only [State.probed, reads_append, reads_writes, List.append_nil]
  · intro hno
    have ho : probeRetried o = false := by
      cases hb : probeRetried o with
      | false => rfl
      | true => exact absurd ((probeRetried_iff o).mp hb) hno
    exact probeLoop_retried st rs o rest hrs1 ho

/-- C9, witness: two interrupted writes and a zero-byte write, then a write
that fails with the error code 32: four writes, no descriptor read. -/
theorem probe_retried_while_interrupted_witness :
    demoApp.connect 0 [{ ret := -1, errno := 4 }, { ret := 0, errno := 0 },
        { ret := -1, errno := 4 }, { ret := -1, errno := 32 }] (Except.ok 10) (Except.ok 11) =
      some (Except.error (Exn.SystemException
        "Cannot request a new session from the request handler" 32),
        demoApp.probed 4) ∧
    (demoApp.probed 4).trace = demoApp.trace ++ List.replicate 4 (Event.write 5) ∧
    reads (demoApp.probed 4).trace = reads demoApp.trace :=
  (probe_retried_while_interrupted demoApp 0
    [{ ret := -1, errno := 4 }, { ret := 0, errno := 0 }, { ret := -1, errno := 4 }]
    { ret := -1, errno := 32 } [] (Except.ok 10) (Except.ok 11) (by decide)).2.2.1 rfl
    (by decide)

/-! ## C10: the first descriptor when the second read fails -/

/-- C10: when the probe write and the first descriptor read succeed (with the
descriptor `r`) and the second descriptor read fails, `connect()` raises an
error; it has made the probe writes and the two reads and nothing else: no
`close`, so `r` has not been closed, no session has been constructed and the
counter is unchanged. And `connect()` never closes a descriptor, however it
ends. -/
theorem second_read_failure_leaves_first_open (st : State) (cb : Nat)
    (rs : List ProbeOutcome) (o : ProbeOutcome) (rest : List ProbeOutcome) (r : Int) (c : Exn)
    (hrs : ∀ x ∈ rs, probeRetried x = true) (ho : probeRetried o = false)
    (hret : o.ret ≠ -1) :
    st.connect cb (rs ++ o :: rest) (Except.ok r) (Except.error c) =
      some (Except.error (connectRethrow c),
        st.extended (List.replicate (rs.length + 1) (Event.write st.app.listenSocket)
          ++ [Event.readFileDescriptor st.app.listenSocket,
              Event.readFileDescriptor st.app.listenSocket])) ∧
    closes (st.trace ++ List.replicate (rs.length + 1) (Event.write st.app.listenSocket)
      ++ [Event.readFileDescriptor st.app.listenSocket,
          Event.readFileDescriptor st.app.listenSocket]) = closes st.trace ∧
    (∀ live, System.step { st := st, live := live }
        (Op.connect cb (rs ++ o :: rest) (Except.ok r) (Except.error c)) =
      some (System.mk
        (st.extended (List.replicate (rs.length + 1) (Event.write st.app.listenSocket)
          ++ [Event.readFileDescriptor st.app.listenSocket,
              Event.readFileDescriptor st.app.listenSocket]))
        live)) ∧
    (∀ probes fd1 fd2 res st1, st.connect cb probes fd1 fd2 = some (res, st1) →
      closes st1.trace = closes st.trace) := by
  have hcon : st.connect cb (rs ++ o :: rest) (Except.ok r) (Except.error c) =
      some (Except.error (connectRethrow c),
        st.extended (List.replicate (rs.length + 1) (Event.write st.app.listenSocket)
          ++ [Event.readFileDescriptor st.app.listenSocket,
              Event.readFileDescriptor st.app.listenSocket])) := by
    rw [connect_eq st cb rs o rest _ _ hrs ho, if_neg hret]
    simp [connectTry, State.emit, State.probed, State.extended]
  refine ⟨hcon, ?_, ?_, ?_⟩
  · simp only [closes_append, closes_writes, List.append_nil]
    simp [closes]
  · intro live
    simp only [System.step, hcon]
  · intro probes fd1 fd2 res st1 h
    exact (connect_no_close st cb probes fd1 fd2 res st1 h).1

/-- C10, witness: the first read yields the descriptor 10 and the second one
fails; no descriptor has been closed. -/
theorem second_read_failure_leaves_first_open_witness :
    demoApp.connect 0 [{ ret := 1, errno := 0 }] (Except.ok 10)
        (Except.error (Exn.SystemException "Cannot read file descriptor with recvmsg()" 104)) =
      some (Except.error (Exn.SystemException
        "Cannot receive one of the session file descriptors from the request handler" 104),
        { app := demoApp.app, data := { sessions := 0 },
          trace := [Event.write 5, Event.readFileDescriptor 5, Event.readFileDescriptor 5] }) ∧
    closes [Event.write 5, Event.readFileDescriptor 5, Event.readFileDescriptor 5] = [] :=
  ⟨(second_read_failure_leaves_first_open demoApp 0 [] { ret := 1, errno := 0 } [] 10
      (Exn.SystemException "Cannot read file descriptor with recvmsg()" 104)
      (by decide) (by decide) (by decide)).1,
    by decide⟩

end Passenger
